import Mathlib

/-!
Verification of `docs/assets/sidebar.js` from the memex-kb-site repository.

The file is a shallow embedding of the sidebar script: the DOM state touched
by each controller is made an explicit Lean structure, each event handler is
a pure state-transformer, and the external lunr library is an injected
capability whose `search` may raise (modelled with `Except`).
-/

/- ===== SIDEBAR TABS (setupSidebarTabs / switchTab) ===== -/

/-- A `.nav-tab` button: its `data-tab` attribute and whether it carries the
`active` class. -/
structure TabButton where
  dataTab : String
  active : Bool
deriving DecidableEq, Repr

/-- The DOM state the tab controller touches: the tab buttons (in document
order), the two sections' `style.display` values, and the value stored under
the `memex-sidebar-tab` localStorage key (`none` = key absent). -/
structure TabState where
  tabs : List TabButton
  treeDisplay : String
  recentDisplay : String
  storage : Option String
deriving DecidableEq, Repr

/-- `document.querySelector('.nav-tab[data-tab="..."]').classList.add('active')`:
marks the first button in document order whose `data-tab` matches; a no-op
when no button matches (the `if (activeTab)` guard in the source). -/
def activateFirst (tabName : String) : List TabButton → List TabButton
  | [] => []
  | t :: ts =>
    if t.dataTab = tabName then { t with active := true } :: ts
    else t :: activateFirst tabName ts

/-- `switchTab(tabName)`: clears `active` from every tab button, marks the
first button with a matching `data-tab`, and sets the two sections' displays
(`block` for the chosen one, `none` for the other). -/
def switchTab (tabName : String) (s : TabState) : TabState :=
  let cleared := s.tabs.map fun t => { t with active := false }
  { s with
    tabs := activateFirst tabName cleared
    treeDisplay := if tabName = "tree" then "block" else "none"
    recentDisplay := if tabName = "recent" then "block" else "none" }

/-- `localStorage.getItem(STORAGE_KEY) || 'tree'`: the saved tab, defaulting
to `"tree"` when the key is absent or holds the (falsy) empty string. -/
def savedTabOf (storage : Option String) : String :=
  match storage with
  | none => "tree"
  | some v => if v = "" then "tree" else v

/-- The restore step of `setupSidebarTabs`: `switchTab(savedTab)` with the
saved (or default) tab name. Does not write storage. -/
def restoreSavedTab (s : TabState) : TabState :=
  switchTab (savedTabOf s.storage) s

/-- The click handler attached to each tab button: `switchTab(tab.dataset.tab)`
followed immediately by `localStorage.setItem(STORAGE_KEY, tabName)`. -/
def clickTab (t : TabButton) (s : TabState) : TabState :=
  let s2 := switchTab t.dataTab s
  { s2 with storage := some t.dataTab }

/-- Number of tab buttons carrying the `active` class. -/
def countActive (l : List TabButton) : Nat :=
  (l.filter fun t => t.active).length

/- Helper lemmas about the tab controller. -/

theorem countActive_of_all_inactive (l : List TabButton)
    (h : ∀ t ∈ l, t.active = false) : countActive l = 0 := by
  induction l with
  | nil => rfl
  | cons t ts ih =>
    have ht : t.active = false := h t (List.mem_cons_self t ts)
    have hts : ∀ u ∈ ts, u.active = false := fun u hu => h u (List.mem_cons_of_mem t hu)
    have h0 : countActive ts = 0 := ih hts
    simp only [countActive, List.filter_cons, ht] at h0 ⊢
    simpa using h0

theorem countActive_activateFirst (tabName : String) (l : List TabButton)
    (hall : ∀ t ∈ l, t.active = false)
    (hmem : ∃ t ∈ l, t.dataTab = tabName) :
    countActive (activateFirst tabName l) = 1 := by
  induction l with
  | nil => obtain ⟨t, ht, _⟩ := hmem; exact absurd ht (List.not_mem_nil t)
  | cons t ts ih =>
    have hts : ∀ u ∈ ts, u.active = false := fun u hu => hall u (List.mem_cons_of_mem t hu)
    by_cases hd : t.dataTab = tabName
    · have h0 : countActive ts = 0 := countActive_of_all_inactive ts hts
      simp only [countActive] at h0
      simp [activateFirst, hd, countActive, List.filter_cons, h0]
    · have hmem2 : ∃ u ∈ ts, u.dataTab = tabName := by
        obtain ⟨u, hu, hud⟩ := hmem
        rcases List.mem_cons.mp hu with h1 | h2
        · exact absurd (h1 ▸ hud) hd
        · exact ⟨u, h2, hud⟩
      have ht : t.active = false := hall t (List.mem_cons_self t ts)
      have h1 : countActive (activateFirst tabName ts) = 1 := ih hts hmem2
      simp only [countActive] at h1
      simp [activateFirst, hd, countActive, List.filter_cons, ht, h1]

/-- Modelled from the spec: the site's HTML pages (not under src/) wire
exactly the two tabs of the data model, so every `.nav-tab` button on a page
carries `data-tab` equal to `"tree"` or `"recent"`. -/
def specTabButtons (tabs : List TabButton) : Prop :=
  ∀ b ∈ tabs, b.dataTab = "tree" ∨ b.dataTab = "recent"

/-- A concrete page state with the two tab buttons, used by the witnesses. -/
def tabState0 : TabState :=
  { tabs := [⟨"tree", false⟩, ⟨"recent", false⟩]
    treeDisplay := "block"
    recentDisplay := "none"
    storage := none }

/-- Claim C3: for every tab name X in \x7btree, recent\x7d (present among the
page's buttons), switching to X leaves exactly one tab button active and
exactly one content region visible, the other region's display being
`none`. -/
theorem switchTab_exactly_one_active (s : TabState) (X : String)
    (hX : X = "tree" ∨ X = "recent")
    (hmem : ∃ t ∈ s.tabs, t.dataTab = X) :
    countActive (switchTab X s).tabs = 1 ∧
    (((switchTab X s).treeDisplay = "block" ∧ (switchTab X s).recentDisplay = "none") ∨
     ((switchTab X s).treeDisplay = "none" ∧ (switchTab X s).recentDisplay = "block")) := by
  constructor
  · apply countActive_activateFirst
    · intro t ht
      simp only [List.mem_map] at ht
      obtain ⟨u, _, rfl⟩ := ht
      rfl
    · obtain ⟨t, ht, hd⟩ := hmem
      exact ⟨{ t with active := false },
        List.mem_map_of_mem (fun t => { t with active := false }) ht, hd⟩
  · rcases hX with h | h <;> subst h <;> simp [switchTab]

/-- Witness for C3 at a concrete page state and the `recent` tab. -/
theorem switchTab_exactly_one_active_witness :
    countActive (switchTab "recent" tabState0).tabs = 1 ∧
    (((switchTab "recent" tabState0).treeDisplay = "block" ∧
      (switchTab "recent" tabState0).recentDisplay = "none") ∨
     ((switchTab "recent" tabState0).treeDisplay = "none" ∧
      (switchTab "recent" tabState0).recentDisplay = "block")) :=
  switchTab_exactly_one_active tabState0 "recent" (Or.inr rfl)
    ⟨⟨"recent", false⟩, by decide, rfl⟩

/-- Claim C7: on page load with no persisted tab preference, the restore step
shows the tree region (`block`) and hides the recent region (`none`). -/
theorem restore_default_tree (s : TabState) (h : s.storage = none) :
    (restoreSavedTab s).treeDisplay = "block" ∧
    (restoreSavedTab s).recentDisplay = "none" := by
  simp [restoreSavedTab, savedTabOf, h, switchTab]

/-- Witness for C7 at a concrete page state with empty storage. -/
theorem restore_default_tree_witness :
    (restoreSavedTab tabState0).treeDisplay = "block" ∧
    (restoreSavedTab tabState0).recentDisplay = "none" :=
  restore_default_tree tabState0 rfl

/-- Claim C8: the click handler stores the clicked button's `data-tab` in the
same step (immediately); with the page's buttons modelled from the spec, every
value written is the literal `"tree"` or `"recent"`; and the restore step
performs no write. -/
theorem clickTab_writes_tree_or_recent (s : TabState) (t : TabButton)
    (ht : t ∈ s.tabs) (hpage : specTabButtons s.tabs) :
    (clickTab t s).storage = some t.dataTab ∧
    (t.dataTab = "tree" ∨ t.dataTab = "recent") ∧
    (restoreSavedTab s).storage = s.storage :=
  ⟨rfl, hpage t ht, rfl⟩

/-- Witness for C8 at a concrete page state, clicking the `tree` button. -/
theorem clickTab_writes_tree_or_recent_witness :
    (clickTab ⟨"tree", false⟩ tabState0).storage = some "tree" ∧
    (("tree" : String) = "tree" ∨ ("tree" : String) = "recent") ∧
    (restoreSavedTab tabState0).storage = tabState0.storage :=
  clickTab_writes_tree_or_recent tabState0 ⟨"tree", false⟩ (by decide)
    (by unfold specTabButtons; decide)

/- ===== MOBILE MENU (setupMobileMenu) ===== -/

/-- The marker classes the mobile menu controller toggles: `active` on the
menu button, `open` on the sidebar, `active` on the overlay, `menu-open` on
the body. -/
structure MenuState where
  btnActive : Bool
  sidebarOpen : Bool
  overlayActive : Bool
  bodyMenuOpen : Bool
deriving DecidableEq, Repr

/-- `openMenu()`: adds all four marker classes; the overlay class only when
the overlay element exists (`if (overlay)` in the source). -/
def openMenu (hasOverlay : Bool) (s : MenuState) : MenuState :=
  { s with
    btnActive := true
    sidebarOpen := true
    overlayActive := if hasOverlay then true else s.overlayActive
    bodyMenuOpen := true }

/-- `closeMenu()`: removes all four marker classes; the overlay class only
when the overlay element exists. -/
def closeMenu (hasOverlay : Bool) (s : MenuState) : MenuState :=
  { s with
    btnActive := false
    sidebarOpen := false
    overlayActive := if hasOverlay then false else s.overlayActive
    bodyMenuOpen := false }

/-- `toggleMenu()`: close when the sidebar carries `open`, open otherwise. -/
def toggleMenu (hasOverlay : Bool) (s : MenuState) : MenuState :=
  if s.sidebarOpen then closeMenu hasOverlay s else openMenu hasOverlay s

/-- The document `keydown` handler: `closeMenu()` when the key is Escape and
the sidebar carries `open`; otherwise nothing. -/
def menuKeydown (hasOverlay : Bool) (key : String) (s : MenuState) : MenuState :=
  if key = "Escape" ∧ s.sidebarOpen then closeMenu hasOverlay s else s

/-- Claim C9: pressing Escape while the menu is closed leaves the whole menu
state (button, sidebar, overlay, body markers) exactly as before. -/
theorem menuKeydown_escape_closed_frame (hasOverlay : Bool) (s : MenuState)
    (h : s.sidebarOpen = false) :
    menuKeydown hasOverlay "Escape" s = s := by
  simp [menuKeydown, h]

/-- Witness for C9 at a concrete closed menu state. -/
theorem menuKeydown_escape_closed_frame_witness :
    menuKeydown true "Escape" ⟨false, false, false, false⟩ =
      (⟨false, false, false, false⟩ : MenuState) :=
  menuKeydown_escape_closed_frame true ⟨false, false, false, false⟩ rfl

/- ===== MOBILE SEARCH (setupMobileSearch / performMobileSearch) ===== -/

/-- One entry of the fetched `metadata` map: `{title, path, tags}`. -/
structure DocMeta where
  title : String
  path : String
  tags : List String
deriving DecidableEq, Repr

/-- A lunr search result; only its `ref` (the document id) is read by the
renderer. -/
structure SearchResult where
  ref : String
deriving DecidableEq, Repr

/-- The consumed lunr index capability: `search(query)` returns an ordered
result list or raises (modelled with `Except`; the error payload is the
exception message). -/
structure SearchIndex where
  search : String → Except String (List SearchResult)

/-- One fetched document, as fed to the lunr builder (`ref('id')`, fields
`title`, `tags`, `content`). -/
structure LunrDoc where
  id : String
  title : String
  tags : List String
  content : String
deriving DecidableEq, Repr

/-- The parsed `search-index.json` payload: `{documents, metadata}`. -/
structure SearchData where
  documents : List LunrDoc
  metadata : List (String × DocMeta)

/-- `escapeHtml(text)`: the DOM round-trip `div.textContent = text;
div.innerHTML` serializes the text node, escaping the markup-significant
characters `&`, `<`, `>`. -/
def escapeHtml (text : String) : String :=
  String.join (text.data.map fun c =>
    if c = '&' then "&amp;"
    else if c = '<' then "&lt;"
    else if c = '>' then "&gt;"
    else String.singleton c)

/-- The literal markup rendered when the result list is empty. -/
def noResultsHtml : String :=
  "<div class=\"search-result\">No results found</div>"

/-- The body of the `results.slice(0, 15).map(...)` callback: look the result
id up in the metadata map, return `''` when absent, otherwise the result
`<div>` with the link (escaped title) and, when tags exist, the tag line. -/
def renderResult (baseUrl : String) (metadata : List (String × DocMeta))
    (result : SearchResult) : String :=
  match metadata.lookup result.ref with
  | none => ""
  | some meta =>
    let tagsHtml :=
      if meta.tags.length > 0 then
        "<div class=\"search-tags\">" ++ String.intercalate ", " meta.tags ++ "</div>"
      else ""
    "<div class=\"search-result\">" ++
      "<a href=\"" ++ baseUrl ++ "/" ++ meta.path ++ "\">" ++
      escapeHtml meta.title ++ "</a>" ++
      tagsHtml ++
      "</div>"

/-- The `try { ... } catch` block of `performMobileSearch`: run the trimmed
query verbatim; on zero results run it again with `'*'` appended; any raise
yields `[]`. Returns the final value of the `results` variable together with
the list of queries actually passed to `searchIndex.search` (instrumentation
for the call trace). -/
def runSearch (idx : SearchIndex) (query : String) :
    List SearchResult × List String :=
  match idx.search query with
  | Except.error _ => ([], [query])
  | Except.ok r =>
    if r.length = 0 then
      match idx.search (query ++ "*") with
      | Except.error _ => ([], [query, query ++ "*"])
      | Except.ok r2 => (r2, [query, query ++ "*"])
    else (r, [query])

/-- The mutable closure state of `setupMobileSearch`: the lazily loaded index
and metadata (both `null` until the fetch resolves), the input's value, the
results container's `innerHTML`, and the overlay / body marker classes. -/
structure MobileSearchState where
  searchIndex : Option SearchIndex
  searchMetadata : Option (List (String × DocMeta))
  inputValue : String
  resultsHtml : String
  overlayActive : Bool
  bodyMenuOpen : Bool

/-- JS `String.prototype.trim()`: drop whitespace from both ends, modelled
structurally on the character list so that it evaluates by `decide`. -/
def jsTrim (s : String) : String :=
  ⟨((s.data.dropWhile Char.isWhitespace).reverse.dropWhile Char.isWhitespace).reverse⟩

/-- `performMobileSearch()`: trim the input; when the query is empty or the
index is not loaded (`!query || !searchIndex`), clear the results and return.
Otherwise run the try/catch search; zero results render the "No results
found" markup, otherwise the first 15 results are rendered and joined.
Returns the updated state (`none` models the uncaught TypeError JS would
raise dereferencing a `null` metadata map) and the index call trace. -/
def performMobileSearch (baseUrl : String) (s : MobileSearchState) :
    Option MobileSearchState × List String :=
  let query := jsTrim s.inputValue
  match s.searchIndex with
  | none => (some { s with resultsHtml := "" }, [])
  | some idx =>
    if query = "" then (some { s with resultsHtml := "" }, [])
    else
      let rc := runSearch idx query
      if rc.1.length = 0 then
        (some { s with resultsHtml := noResultsHtml }, rc.2)
      else
        match s.searchMetadata with
        | none => (none, rc.2)
        | some meta =>
          let html := String.join ((rc.1.take 15).map (renderResult baseUrl meta))
          (some { s with resultsHtml := html }, rc.2)

/-- The events of the mobile search controller's lifetime: resolution of the
index fetch (success parses the data and builds the index; failure only
logs), an input edit, the debounced search firing, and overlay open/close. -/
inductive MSEvent where
  | fetchSuccess (data : SearchData)
  | fetchFailure
  | inputEdit (q : String)
  | debouncedSearch
  | openOverlay
  | closeOverlay

/-- One controller step. `lunrBuild` is the injected lunr constructor; the
fetch success handler sets `searchMetadata = data.metadata` and
`searchIndex = lunr(...)` in the same tick. `none` models a crash. -/
def msStep (lunrBuild : List LunrDoc → SearchIndex) (baseUrl : String)
    (s : MobileSearchState) : MSEvent → Option MobileSearchState
  | MSEvent.fetchSuccess data =>
    some { s with
      searchMetadata := some data.metadata
      searchIndex := some (lunrBuild data.documents) }
  | MSEvent.fetchFailure => some s
  | MSEvent.inputEdit q => some { s with inputValue := q }
  | MSEvent.debouncedSearch => (performMobileSearch baseUrl s).1
  | MSEvent.openOverlay =>
    some { s with overlayActive := true, bodyMenuOpen := true }
  | MSEvent.closeOverlay =>
    some { s with
      overlayActive := false
      bodyMenuOpen := false
      inputValue := ""
      resultsHtml := "" }

/-- The controller's state right after `setupMobileSearch` runs: index and
metadata both `null`, input and results empty, overlay closed. -/
def msInit : MobileSearchState :=
  { searchIndex := none
    searchMetadata := none
    inputValue := ""
    resultsHtml := ""
    overlayActive := false
    bodyMenuOpen := false }

/-- States reachable during the controller's lifetime: `msInit` plus anything
an event step (that does not crash) produces. -/
inductive msReachable (lunrBuild : List LunrDoc → SearchIndex) (baseUrl : String) :
    MobileSearchState → Prop
  | init : msReachable lunrBuild baseUrl msInit
  | step (s s2 : MobileSearchState) (e : MSEvent) :
      msReachable lunrBuild baseUrl s →
      msStep lunrBuild baseUrl s e = some s2 →
      msReachable lunrBuild baseUrl s2

/- Helper lemmas and concrete fixtures for the search controller. -/

theorem performMobileSearch_shape (baseUrl : String) (s s2 : MobileSearchState)
    (h : (performMobileSearch baseUrl s).1 = some s2) :
    ∃ html, s2 = { s with resultsHtml := html } := by
  cases hidx : s.searchIndex with
  | none =>
    simp [performMobileSearch, hidx] at h
    exact ⟨"", h.symm⟩
  | some idx =>
    by_cases hq : jsTrim s.inputValue = ""
    · simp [performMobileSearch, hidx, hq] at h
      exact ⟨"", h.symm⟩
    · by_cases hz : (runSearch idx (jsTrim s.inputValue)).1.length = 0
      · simp [performMobileSearch, hidx, hq, hz] at h
        exact ⟨noResultsHtml, h.symm⟩
      · cases hmeta : s.searchMetadata with
        | none => simp [performMobileSearch, hidx, hq, hz, hmeta] at h
        | some meta =>
          simp [performMobileSearch, hidx, hq, hz, hmeta] at h
          exact ⟨_, h.symm⟩

/-- A trivial injected lunr constructor, used by concrete witnesses. -/
def lunrBuild0 : List LunrDoc → SearchIndex :=
  fun _ => ⟨fun _ => Except.ok []⟩

/-- Claim C1: in every state reachable in the controller's lifetime the index
and the metadata are both present or both absent, and while the index is
absent the debounced search step only clears the results container. -/
theorem msReachable_index_metadata_invariant
    (lunrBuild : List LunrDoc → SearchIndex) (baseUrl : String)
    (s : MobileSearchState) (h : msReachable lunrBuild baseUrl s) :
    s.searchIndex.isSome = s.searchMetadata.isSome ∧
    (s.searchIndex = none →
      msStep lunrBuild baseUrl s MSEvent.debouncedSearch =
        some { s with resultsHtml := "" }) := by
  have hnoop : ∀ t : MobileSearchState, t.searchIndex = none →
      msStep lunrBuild baseUrl t MSEvent.debouncedSearch =
        some { t with resultsHtml := "" } := by
    intro t ht
    simp [msStep, performMobileSearch, ht]
  induction h with
  | init => exact ⟨rfl, hnoop msInit⟩
  | step s s2 e hr heq ih =>
    refine ⟨?_, hnoop s2⟩
    cases e with
    | fetchSuccess data =>
      simp only [msStep] at heq
      cases heq
      rfl
    | fetchFailure =>
      simp only [msStep, Option.some.injEq] at heq
      cases heq
      exact ih.1
    | inputEdit q =>
      simp only [msStep, Option.some.injEq] at heq
      cases heq
      exact ih.1
    | debouncedSearch =>
      obtain ⟨html, rfl⟩ :=
        performMobileSearch_shape baseUrl s s2 (by simpa [msStep] using heq)
      exact ih.1
    | openOverlay =>
      simp only [msStep, Option.some.injEq] at heq
      cases heq
      exact ih.1
    | closeOverlay =>
      simp only [msStep, Option.some.injEq] at heq
      cases heq
      exact ih.1

/-- Witness for C1 at the initial state. -/
theorem msReachable_index_metadata_invariant_witness :
    msInit.searchIndex.isSome = msInit.searchMetadata.isSome ∧
    (msInit.searchIndex = none →
      msStep lunrBuild0 "" msInit MSEvent.debouncedSearch =
        some { msInit with resultsHtml := "" }) :=
  msReachable_index_metadata_invariant lunrBuild0 "" msInit msReachable.init

/-- Claim C4: an empty-after-trim query, and any query while the index is not
loaded, clears the rendered results and stops without calling the index's
search operation (empty call trace). -/
theorem performMobileSearch_empty_or_unloaded_clears (baseUrl : String)
    (s : MobileSearchState)
    (h : jsTrim s.inputValue = "" ∨ s.searchIndex = none) :
    performMobileSearch baseUrl s = (some { s with resultsHtml := "" }, []) := by
  rcases h with h | h
  · cases hidx : s.searchIndex <;> simp [performMobileSearch, hidx, h]
  · simp [performMobileSearch, h]

/-- A state with a loaded (trivial) index but whitespace-only input. -/
def msBlankInput : MobileSearchState :=
  { msInit with inputValue := "   ", searchIndex := some (lunrBuild0 []) }

/-- Witness for C4 at a whitespace-only query with a loaded index. -/
theorem performMobileSearch_empty_or_unloaded_clears_witness :
    performMobileSearch "" msBlankInput =
      (some { msBlankInput with resultsHtml := "" }, []) :=
  performMobileSearch_empty_or_unloaded_clears "" msBlankInput (Or.inl (by decide))

/-- A state with a non-empty query while the index never loaded. -/
def msUnavailable : MobileSearchState :=
  { msInit with inputValue := "memex" }

/-- Counterexample to C2 as stated: with the index not loaded and the
non-empty query "memex", the handler sets the results container to the empty
string, which is not the "No results found" markup. -/
theorem performMobileSearch_unavailable_renders_empty :
    (performMobileSearch "" msUnavailable).1 =
      some { msUnavailable with resultsHtml := "" } ∧
    "" ≠ noResultsHtml := by
  exact ⟨rfl, by decide⟩

/-- Claim C2 (amended): a query while the index is unavailable clears the
results container (the empty-query state, not the "No results found" state);
the "No results found" markup is rendered exactly when the index is loaded,
the trimmed query is non-empty, and the try/catch search yields zero
results. -/
theorem performMobileSearch_unavailable_vs_noResults (baseUrl : String)
    (s : MobileSearchState) :
    (s.searchIndex = none →
      performMobileSearch baseUrl s = (some { s with resultsHtml := "" }, [])) ∧
    (∀ idx, s.searchIndex = some idx → jsTrim s.inputValue ≠ "" →
      (runSearch idx (jsTrim s.inputValue)).1 = [] →
      (performMobileSearch baseUrl s).1 =
        some { s with resultsHtml := noResultsHtml }) := by
  constructor
  · intro h
    simp [performMobileSearch, h]
  · intro idx hidx hq hz
    simp [performMobileSearch, hidx, hq, hz]

/-- Witness for C2 (amended) at a concrete unavailable-index state. -/
theorem performMobileSearch_unavailable_vs_noResults_witness :
    performMobileSearch "" msUnavailable =
      (some { msUnavailable with resultsHtml := "" }, []) :=
  (performMobileSearch_unavailable_vs_noResults "" msUnavailable).1 rfl

/-- Claim C5: with a loaded index and a non-empty trimmed query q, a verbatim
search returning zero results is retried exactly once with q ++ "*" and the
wildcard call's results are used; a raise from either call is treated as zero
results; a non-empty verbatim result is used with no retry; and the handler's
index call trace is exactly the try/catch block's. -/
theorem runSearch_wildcard_retry (baseUrl : String) (s : MobileSearchState)
    (idx : SearchIndex) (hidx : s.searchIndex = some idx)
    (hq : jsTrim s.inputValue ≠ "") :
    (∀ r2, idx.search (jsTrim s.inputValue) = Except.ok [] →
      idx.search (jsTrim s.inputValue ++ "*") = Except.ok r2 →
      runSearch idx (jsTrim s.inputValue) =
        (r2, [jsTrim s.inputValue, jsTrim s.inputValue ++ "*"])) ∧
    (∀ e, idx.search (jsTrim s.inputValue) = Except.error e →
      runSearch idx (jsTrim s.inputValue) = ([], [jsTrim s.inputValue])) ∧
    (∀ e, idx.search (jsTrim s.inputValue) = Except.ok [] →
      idx.search (jsTrim s.inputValue ++ "*") = Except.error e →
      runSearch idx (jsTrim s.inputValue) =
        ([], [jsTrim s.inputValue, jsTrim s.inputValue ++ "*"])) ∧
    (∀ r, idx.search (jsTrim s.inputValue) = Except.ok r → r ≠ [] →
      runSearch idx (jsTrim s.inputValue) = (r, [jsTrim s.inputValue])) ∧
    (performMobileSearch baseUrl s).2 = (runSearch idx (jsTrim s.inputValue)).2 := by
  refine ⟨?_, ?_, ?_, ?_, ?_⟩
  · intro r2 h1 h2
    simp [runSearch, h1, h2]
  · intro e h1
    simp [runSearch, h1]
  · intro e h1 h2
    simp [runSearch, h1, h2]
  · intro r h1 hr
    simp [runSearch, h1, List.length_eq_zero, hr]
  · by_cases hz : (runSearch idx (jsTrim s.inputValue)).1.length = 0
    · simp [performMobileSearch, hidx, hq, hz]
    · cases hmeta : s.searchMetadata with
      | none => simp [performMobileSearch, hidx, hq, hz, hmeta]
      | some meta => simp [performMobileSearch, hidx, hq, hz, hmeta]

/-- A concrete index: zero verbatim matches for "mem", one wildcard match for
"mem*", a raise on anything else. -/
def idx0 : SearchIndex :=
  ⟨fun q =>
    if q = "mem" then Except.ok []
    else if q = "mem*" then Except.ok [⟨"a"⟩]
    else Except.error "lunr: unsupported query"⟩

/-- A concrete metadata map for the loaded-state witnesses. -/
def msMeta0 : List (String × DocMeta) :=
  [("a", ⟨"Memex", "a.html", []⟩)]

/-- A loaded controller state querying "mem". -/
def msLoaded : MobileSearchState :=
  { msInit with
    inputValue := "mem"
    searchIndex := some idx0
    searchMetadata := some msMeta0 }

/-- Witness for C5: the query "mem" falls back to "mem*" and uses its
result. -/
theorem runSearch_wildcard_retry_witness :
    runSearch idx0 (jsTrim msLoaded.inputValue) =
      ([⟨"a"⟩], [jsTrim msLoaded.inputValue, jsTrim msLoaded.inputValue ++ "*"]) :=
  (runSearch_wildcard_retry "" msLoaded idx0 rfl (by decide)).1 [⟨"a"⟩] rfl rfl

theorem string_append_assoc (a b c : String) : a ++ b ++ c = a ++ (b ++ c) :=
  congrArg String.mk (List.append_assoc a.data b.data c.data)

/-- Claim C6: with index and metadata loaded and a non-empty result list, the
handler renders the join of at most the first 15 results; a result whose id
is missing from the metadata map renders as "" (skipped silently); a result
whose id has metadata renders as the result div whose link display text is
the HTML-escaped title. -/
theorem render_take15_skip_missing (baseUrl : String) (s : MobileSearchState)
    (idx : SearchIndex) (meta : List (String × DocMeta))
    (hidx : s.searchIndex = some idx) (hmeta : s.searchMetadata = some meta)
    (hq : jsTrim s.inputValue ≠ "")
    (hne : (runSearch idx (jsTrim s.inputValue)).1 ≠ []) :
    (performMobileSearch baseUrl s).1 = some { s with resultsHtml := String.join (((runSearch idx (jsTrim s.inputValue)).1.take 15).map (renderResult baseUrl meta)) } ∧
    (∀ r : SearchResult, meta.lookup r.ref = none →
      renderResult baseUrl meta r = "") ∧
    (∀ (r : SearchResult) (m : DocMeta), meta.lookup r.ref = some m → ∃ tail,
      renderResult baseUrl meta r =
        "<div class=\"search-result\">" ++ "<a href=\"" ++ baseUrl ++ "/" ++ m.path ++ "\">" ++ escapeHtml m.title ++ "</a>" ++ tail) := by
  refine ⟨?_, ?_, ?_⟩
  · have hz : ¬(runSearch idx (jsTrim s.inputValue)).1.length = 0 := by
      simpa [List.length_eq_zero] using hne
    simp [performMobileSearch, hidx, hmeta, hq, hz]
  · intro r hr
    simp [renderResult, hr]
  · intro r m hm
    refine ⟨(if m.tags.length > 0 then "<div class=\"search-tags\">" ++ String.intercalate ", " m.tags ++ "</div>" else "") ++ "</div>", ?_⟩
    simp [renderResult, hm, string_append_assoc]

/-- Witness for C6 at the loaded concrete state querying "mem". -/
theorem render_take15_skip_missing_witness :
    (performMobileSearch "" msLoaded).1 = some { msLoaded with resultsHtml := String.join (((runSearch idx0 (jsTrim msLoaded.inputValue)).1.take 15).map (renderResult "" msMeta0)) } :=
  (render_take15_skip_missing "" msLoaded idx0 msMeta0 rfl rfl (by decide)
    (by decide)).1

/-- A metadata entry carrying markup in both the title and the tag list. -/
def tagMeta : DocMeta :=
  { title := "<b>T</b>", path := "p.html", tags := ["<i>tag</i>"] }

/-- Claim C10: tag text is joined into the result markup verbatim while the
title goes through the escaping round-trip: at a concrete entry the rendered
tag line keeps the raw markup, the title is escaped, and escaping would have
altered the tag text. -/
theorem renderResult_tags_unescaped :
    renderResult "" [("a", tagMeta)] ⟨"a"⟩ =
      "<div class=\"search-result\"><a href=\"/p.html\">&lt;b&gt;T&lt;/b&gt;</a><div class=\"search-tags\"><i>tag</i></div></div>" ∧
    escapeHtml "<i>tag</i>" ≠ "<i>tag</i>" := by
  constructor
  · rfl
  · decide
